import Mathlib

/-!
Verification of the Sentinel-AI security-scan pipeline against its
natural-language specification.

The definitions below are a shallow embedding of the Python sources:

* `worker/core/consensus_engine.py` — `_parse_json`, `_call_model` and the
  decision core of `analyze_endpoint` (`consensusDecide` / `mergeReviewers`);
* `worker/celery_worker.py` — `calculate_score`, the endpoint/function merge
  loop of `run_security_scan`, its vulnerability-collection filter and its
  status control flow;
* `jira-service/severity_filter.py` — `is_qualifying_vulnerability`;
* `jira-service/duplicate_checker.py` and `notification_worker.py` — the
  duplicate lookup and the per-vulnerability ticket step;
* `Red Team/app/services/attack_simulator.py` — the per-model provenance
  filter of `fetch_vulnerabilities`.

Python dictionaries with a fixed set of relevant keys are embedded as
structures of `Option`-typed fields (`none` = key absent); `dict.get` with a
default becomes `Option.getD`.  Machine integers are `Int`.  Python's
`int(x)` applied to a quotient of integers truncates toward zero, which
`pytrunc` reproduces with sign-guarded natural division.  The two places
where CPython computes a confidence through binary floating point
(`* 1.15` and `* 0.85`) are embedded with exact rational arithmetic; the
float result can differ from the exact one by one unit only when the exact
product is an integer, and no theorem below sits on such a boundary.
-/

namespace Sentinel

/-- Truncation-toward-zero division by a positive divisor, as Python's
`int(a / b)` computes it for integer `a` and positive integer `b`. -/
def pytrunc (num den : Int) : Int :=
  if 0 ≤ num then num / den else -((-num) / den)

/-- A parsed model verdict: the JSON object `_parse_json` returns, with the
four keys the consensus engine reads.  A `none` field stands for a missing
key. -/
structure Verdict where
  has_vulnerability : Option Bool := none
  vulnerability_type : Option String := none
  confidence : Option Int := none
  reasoning : Option String := none
deriving DecidableEq

/-- Abbreviation for a verdict literal with all four keys present, as the
engine's own result dictionaries are written. -/
def mkV (hv : Bool) (t : String) (c : Int) (r : String) : Verdict :=
  { has_vulnerability := some hv, vulnerability_type := some t,
    confidence := some c, reasoning := some r }

/-- Truthiness of `r.get("has_vulnerability")` (missing key reads as false). -/
def Verdict.hv (v : Verdict) : Bool := v.has_vulnerability.getD false

/-- Value of `r.get("confidence", 0)`. -/
def Verdict.conf (v : Verdict) : Int := v.confidence.getD 0

/-- Value of `(r.get("vulnerability_type") or "None")`: a missing key reads
as Python `None` and the empty string is falsy, so both become `"None"`. -/
def Verdict.vtypeOr (v : Verdict) : String :=
  match v.vulnerability_type with
  | none => "None"
  | some s => if s = "" then "None" else s

/-- Rendering of an optional string inside an f-string: Python prints a
missing value as the text `None`. -/
def pyShow (s : Option String) : String :=
  match s with
  | none => "None"
  | some t => t

/-- The default object `_parse_json` returns when no JSON object can be
extracted from the model text (consensus_engine.py line 86). -/
def parse_error_verdict : Verdict := mkV false "None" 0 "Parse error"

/-- Lines 73–86 of consensus_engine.py.  The fence-stripping regexes and
`json.loads` are text plumbing; `decoded` stands for their combined outcome
(`some v` when a JSON object was found and decoded, `none` otherwise).  The
decisive behaviour embedded here: a failed parse yields the fixed default
verdict, not Python `None`. -/
def parse_json (decoded : Option Verdict) : Verdict :=
  match decoded with
  | some v => v
  | none => parse_error_verdict

/-- Lines 89–97 of consensus_engine.py.  `outcome` is `none` when
`generate_completion` raised (the reviewer is unavailable), otherwise the
decoded JSON of its text.  Only an exception produces `None`; a reviewer
whose text fails to parse still produces a (default) verdict.  A parsed
empty object `{}` is falsy in Python and is filtered by every truthiness
test exactly like `None`, so the embedding's `none` covers both. -/
def call_model (outcome : Option (Option Verdict)) : Option Verdict :=
  match outcome with
  | none => none
  | some decoded => some (parse_json decoded)

/-- A consensus result: the `{"status": ..., "result": ...}` dictionary
`analyze_endpoint` returns. -/
structure ConsensusOutput where
  status : String
  result : Verdict
deriving DecidableEq

/-- Lines 140–145: exactly one reviewer responded.  The surviving verdict is
used only when it flags a vulnerability with confidence above 70. -/
def singleModel (r : Verdict) : ConsensusOutput :=
  if r.hv && decide (70 < r.conf) then ⟨"fallback_mistral", r⟩
  else ⟨"clean", mkV false "None" 0 "Single model, confidence too low to flag"⟩

/-- Lines 134–189 of consensus_engine.py: the Mistral/Qwen merge, reached
when the validator verdict is absent or has confidence ≤ 0.  The merged
confidence `int((m_conf + q_conf) / 2 * 1.15)` is embedded exactly as
`pytrunc ((m + q) * 23) 40`, and the disagreement penalty
`int(conf * 0.85)` as `pytrunc (conf * 85) 100`. -/
def mergeReviewers (mistral qwen : Option Verdict) : ConsensusOutput :=
  match mistral, qwen with
  | none, none =>
      ⟨"all_failed", mkV false "None" 0 "All models unavailable"⟩
  | some r, none => singleModel r
  | none, some r => singleModel r
  | some m, some q =>
      if !m.hv && !q.hv then
        ⟨"clean", mkV false "None" 0 "Both models agree: no vulnerability"⟩
      else if m.hv && q.hv && decide (m.vtypeOr = q.vtypeOr) then
        let mergedConf := min 100 (pytrunc ((m.conf + q.conf) * 23) 40)
        let bestReasoning := if q.conf ≤ m.conf then m.reasoning else q.reasoning
        ⟨"consensus",
          mkV true m.vtypeOr mergedConf ("[Consensus] " ++ pyShow bestReasoning)⟩
      else if m.hv && q.hv then
        let best := if q.conf ≤ m.conf then m else q
        let penalised := pytrunc (best.conf * 85) 100
        if 60 < penalised then
          ⟨"judged",
            { best with
              confidence := some penalised
              reasoning := some ("[Disagreement: models differ on type] "
                ++ best.reasoning.getD "") }⟩
        else
          ⟨"clean", mkV false "None" 0
            "Models disagreed on type and penalised confidence too low to flag"⟩
      else
        let vr := if m.hv then m else q
        if 75 < vr.conf then
          ⟨"judged",
            { vr with reasoning := some ("[Split vote — high confidence] "
              ++ vr.reasoning.getD "") }⟩
        else
          ⟨"clean", mkV false "None" 0
            "Split vote: single model did not reach confidence threshold (>75) to flag"⟩

/-- The decision core of `analyze_endpoint` (lines 130–189).  `gemini` is
`some g` when the validator was invoked and its response parsed (`g` is the
parse-error default when the text held no JSON object), `none` when the
validator was unavailable, not invoked, or raised.  Line 131,
`if gemini_result and gemini_result.get("confidence", 0) > 0`, uses the
validator verdict exactly when its confidence exceeds 0 (a non-empty parsed
dictionary is truthy, and the empty one has confidence 0 anyway). -/
def consensusDecide (gemini mistral qwen : Option Verdict) : ConsensusOutput :=
  match gemini with
  | some g => if 0 < g.conf then ⟨"gemini_validated", g⟩ else mergeReviewers mistral qwen
  | none => mergeReviewers mistral qwen

/-- The provenance tags celery_worker.py line 174 treats as positive. -/
def positiveTags : List String :=
  ["consensus", "gemini_validated", "judged", "fallback_mistral"]

/-- Lines 174–176 of celery_worker.py: a consensus output is kept as a
confirmed vulnerability iff its tag is positive, its verdict flags a
vulnerability, and its confidence exceeds 55. -/
def keepVerdict (o : ConsensusOutput) : Bool :=
  decide (o.status ∈ positiveTags) && o.result.hv && decide (55 < o.result.conf)

/-- Every status `mergeReviewers` can return is a literal other than
`gemini_validated`. -/
theorem mergeReviewers_status_ne (m q : Option Verdict) :
    (mergeReviewers m q).status ≠ "gemini_validated" := by
  cases m <;> cases q <;> simp only [mergeReviewers, singleModel] <;>
    (repeat' split) <;> simp

/-- C1 (corrected).  When the validator was invoked and its response parsed,
the engine returns the validator's verdict with tag `gemini_validated` iff
that verdict's confidence exceeds 0 — not 50 as the specification states; a
verdict with confidence ≤ 0 (in particular the parse-failure default, whose
confidence is 0) is not used, and the reviewer-merge rules decide instead. -/
theorem validator_wins_iff_confidence_pos (g : Verdict) (mistral qwen : Option Verdict) :
    ((consensusDecide (some g) mistral qwen).status = "gemini_validated" ↔ 0 < g.conf) ∧
    (0 < g.conf → consensusDecide (some g) mistral qwen = ⟨"gemini_validated", g⟩) := by
  constructor
  · constructor
    · intro h
      by_contra hc
      have : consensusDecide (some g) mistral qwen = mergeReviewers mistral qwen := by
        simp [consensusDecide, hc]
      rw [this] at h
      exact mergeReviewers_status_ne mistral qwen h
    · intro h
      simp [consensusDecide, h]
  · intro h
    simp [consensusDecide, h]

/-- C1, counterexample to the claim as stated: a validator verdict with
confidence 30 — parseable but with confidence ≤ 50 — is nevertheless
returned with tag `gemini_validated`. -/
theorem validator_wins_counterexample :
    (consensusDecide (some (mkV true "BOLA" 30 "g"))
      (some (mkV false "None" 0 "m")) (some (mkV false "None" 0 "q"))).status
      = "gemini_validated" ∧
    ¬ (50 < (mkV true "BOLA" 30 "g").conf) := by
  constructor
  · rfl
  · decide

/-- Division bound: `pytrunc` of a nonnegative numerator is nonnegative. -/
theorem pytrunc_nonneg {n d : Int} (hn : 0 ≤ n) (hd : 0 ≤ d) : 0 ≤ pytrunc n d := by
  unfold pytrunc
  rw [if_pos hn]
  exact Int.ediv_nonneg hn hd

/-- Division bound: a nonnegative numerator at most `d * b` divides to at
most `b`. -/
theorem pytrunc_le_of_le {n d b : Int} (hn : 0 ≤ n) (hd : 0 < d) (h : n ≤ d * b) :
    pytrunc n d ≤ b := by
  unfold pytrunc
  rw [if_pos hn]
  have hdiv := Int.ediv_le_ediv hd h
  rwa [Int.mul_ediv_cancel_left b (ne_of_gt hd)] at hdiv

/-- A reviewer or validator slot whose verdict, when present, has a
confidence within the data model's range [0, 100]. -/
def BoundedOpt : Option Verdict → Prop
  | none => True
  | some v => 0 ≤ v.conf ∧ v.conf ≤ 100

/-- Confidence envelope of `singleModel`. -/
theorem singleModel_bounds (r : Verdict) (h : 0 ≤ r.conf ∧ r.conf ≤ 100) :
    (0 ≤ (singleModel r).result.conf ∧ (singleModel r).result.conf ≤ 100) ∧
    ((singleModel r).status = "fallback_mistral" → 71 ≤ (singleModel r).result.conf) ∧
    ((singleModel r).status = "judged" → 61 ≤ (singleModel r).result.conf) := by
  unfold singleModel
  split
  next hcond =>
    simp only [Bool.and_eq_true, decide_eq_true_eq] at hcond
    refine ⟨⟨h.1, h.2⟩, fun _ => ?_, fun hs => by simp at hs⟩
    show (71 : Int) ≤ r.conf
    omega
  next =>
    refine ⟨⟨?_, ?_⟩, fun hs => by simp at hs, fun hs => by simp at hs⟩
    · show (0 : Int) ≤ 0
      omega
    · show (0 : Int) ≤ 100
      omega

/-- Confidence envelope of the reviewer merge: output confidence stays in
[0, 100] when the inputs do, a `fallback_mistral` verdict has confidence
≥ 71, and a `judged` verdict has confidence ≥ 61. -/
theorem mergeReviewers_bounds (mistral qwen : Option Verdict)
    (hm : BoundedOpt mistral) (hq : BoundedOpt qwen) :
    (0 ≤ (mergeReviewers mistral qwen).result.conf ∧
      (mergeReviewers mistral qwen).result.conf ≤ 100) ∧
    ((mergeReviewers mistral qwen).status = "fallback_mistral" →
      71 ≤ (mergeReviewers mistral qwen).result.conf) ∧
    ((mergeReviewers mistral qwen).status = "judged" →
      61 ≤ (mergeReviewers mistral qwen).result.conf) := by
  cases mistral with
  | none =>
    cases qwen with
    | none =>
      refine ⟨?_, ?_, ?_⟩ <;> simp [mergeReviewers, mkV, Verdict.conf]
    | some r => exact singleModel_bounds r hq
  | some m =>
    cases qwen with
    | none => exact singleModel_bounds m hm
    | some q =>
      have hm' : 0 ≤ m.conf ∧ m.conf ≤ 100 := hm
      have hq' : 0 ≤ q.conf ∧ q.conf ≤ 100 := hq
      have hc0 : 0 ≤ pytrunc ((m.conf + q.conf) * 23) 40 :=
        pytrunc_nonneg (by omega) (by omega)
      have hpm : pytrunc (m.conf * 85) 100 ≤ 85 :=
        @pytrunc_le_of_le (m.conf * 85) 100 85 (by omega) (by omega) (by omega)
      have hpq : pytrunc (q.conf * 85) 100 ≤ 85 :=
        @pytrunc_le_of_le (q.conf * 85) 100 85 (by omega) (by omega) (by omega)
      have hpm0 : 0 ≤ pytrunc (m.conf * 85) 100 := pytrunc_nonneg (by omega) (by omega)
      have hpq0 : 0 ≤ pytrunc (q.conf * 85) 100 := pytrunc_nonneg (by omega) (by omega)
      simp only [mergeReviewers]
      split
      · -- both clean
        refine ⟨⟨?_, ?_⟩, fun hs => by simp at hs, fun hs => by simp at hs⟩
        · show (0 : Int) ≤ 0
          omega
        · show (0 : Int) ≤ 100
          omega
      · split
        · -- consensus: both flag the same kind
          refine ⟨⟨?_, ?_⟩, fun hs => by simp at hs, fun hs => by simp at hs⟩
          · show (0 : Int) ≤ 100 ⊓ pytrunc ((m.conf + q.conf) * 23) 40
            exact le_min (by omega) hc0
          · show (100 : Int) ⊓ pytrunc ((m.conf + q.conf) * 23) 40 ≤ 100
            exact min_le_left _ _
        · split
          · -- both flag, different kinds: first the best-verdict selector splits
            split
            · -- best = m
              split
              · next hp =>
                refine ⟨⟨?_, ?_⟩, fun hs => by simp at hs, fun _ => ?_⟩
                · show (0 : Int) ≤ pytrunc (m.conf * 85) 100
                  omega
                · show pytrunc (m.conf * 85) 100 ≤ 100
                  omega
                · show (61 : Int) ≤ pytrunc (m.conf * 85) 100
                  omega
              · refine ⟨⟨?_, ?_⟩, fun hs => by simp at hs, fun hs => by simp at hs⟩
                · show (0 : Int) ≤ 0
                  omega
                · show (0 : Int) ≤ 100
                  omega
            · -- best = q
              split
              · next hp =>
                refine ⟨⟨?_, ?_⟩, fun hs => by simp at hs, fun _ => ?_⟩
                · show (0 : Int) ≤ pytrunc (q.conf * 85) 100
                  omega
                · show pytrunc (q.conf * 85) 100 ≤ 100
                  omega
                · show (61 : Int) ≤ pytrunc (q.conf * 85) 100
                  omega
              · refine ⟨⟨?_, ?_⟩, fun hs => by simp at hs, fun hs => by simp at hs⟩
                · show (0 : Int) ≤ 0
                  omega
                · show (0 : Int) ≤ 100
                  omega
          · -- split vote: first the surviving-verdict selector splits
            split
            · -- survivor = m
              split
              · next hp =>
                refine ⟨⟨?_, ?_⟩, fun hs => by simp at hs, fun _ => ?_⟩
                · show (0 : Int) ≤ m.conf
                  omega
                · show m.conf ≤ 100
                  omega
                · show (61 : Int) ≤ m.conf
                  omega
              · refine ⟨⟨?_, ?_⟩, fun hs => by simp at hs, fun hs => by simp at hs⟩
                · show (0 : Int) ≤ 0
                  omega
                · show (0 : Int) ≤ 100
                  omega
            · -- survivor = q
              split
              · next hp =>
                refine ⟨⟨?_, ?_⟩, fun hs => by simp at hs, fun _ => ?_⟩
                · show (0 : Int) ≤ q.conf
                  omega
                · show q.conf ≤ 100
                  omega
                · show (61 : Int) ≤ q.conf
                  omega
              · refine ⟨⟨?_, ?_⟩, fun hs => by simp at hs, fun hs => by simp at hs⟩
                · show (0 : Int) ≤ 0
                  omega
                · show (0 : Int) ≤ 100
                  omega

/-- C2 (corrected).  With all model confidences in [0, 100], the engine's
output confidence stays in [0, 100]; a `fallback_mistral` verdict has
confidence ≥ 71 and a `judged` verdict confidence ≥ 61; and the ≥ 56 floor
holds for the verdicts the orchestrator keeps (its filter requires
confidence > 55).  The engine itself guarantees neither confidence ≥ 56 nor
kind ≠ None on a flagged verdict (see the counterexample). -/
theorem consensus_confidence_envelope (gemini mistral qwen : Option Verdict)
    (hg : BoundedOpt gemini) (hm : BoundedOpt mistral) (hq : BoundedOpt qwen) :
    (0 ≤ (consensusDecide gemini mistral qwen).result.conf ∧
      (consensusDecide gemini mistral qwen).result.conf ≤ 100) ∧
    ((consensusDecide gemini mistral qwen).status = "fallback_mistral" →
      71 ≤ (consensusDecide gemini mistral qwen).result.conf) ∧
    ((consensusDecide gemini mistral qwen).status = "judged" →
      61 ≤ (consensusDecide gemini mistral qwen).result.conf) ∧
    (∀ o : ConsensusOutput, keepVerdict o = true → 56 ≤ o.result.conf) := by
  have hkeep : ∀ o : ConsensusOutput, keepVerdict o = true → 56 ≤ o.result.conf := by
    intro o ho
    simp only [keepVerdict, Bool.and_eq_true, decide_eq_true_eq] at ho
    omega
  cases gemini with
  | none =>
    have h := mergeReviewers_bounds mistral qwen hm hq
    exact ⟨h.1, h.2.1, h.2.2, hkeep⟩
  | some g =>
    have hg' : 0 ≤ g.conf ∧ g.conf ≤ 100 := hg
    simp only [consensusDecide]
    split
    · exact ⟨⟨hg'.1, hg'.2⟩, fun hs => by simp at hs, fun hs => by simp at hs, hkeep⟩
    · have h := mergeReviewers_bounds mistral qwen hm hq
      exact ⟨h.1, h.2.1, h.2.2, hkeep⟩

/-- C2, witness: the envelope at a concrete input (Mistral alone flagging
BOLA at confidence 80, no Qwen, no validator). -/
theorem consensus_confidence_envelope_witness :
    (0 ≤ (consensusDecide none (some (mkV true "BOLA" 80 "m")) none).result.conf ∧
      (consensusDecide none (some (mkV true "BOLA" 80 "m")) none).result.conf ≤ 100) ∧
    ((consensusDecide none (some (mkV true "BOLA" 80 "m")) none).status = "fallback_mistral" →
      71 ≤ (consensusDecide none (some (mkV true "BOLA" 80 "m")) none).result.conf) ∧
    ((consensusDecide none (some (mkV true "BOLA" 80 "m")) none).status = "judged" →
      61 ≤ (consensusDecide none (some (mkV true "BOLA" 80 "m")) none).result.conf) ∧
    (∀ o : ConsensusOutput, keepVerdict o = true → 56 ≤ o.result.conf) :=
  consensus_confidence_envelope none (some (mkV true "BOLA" 80 "m")) none
    trivial ⟨by decide, by decide⟩ trivial

/-- C2, counterexample to the claim as stated: a same-kind merge of two
confidence-41 BOLA verdicts returns `has_vulnerability = true` with
confidence 47 < 56, and a validator verdict passed through by the
validator-wins rule can carry kind `None` while flagging a vulnerability. -/
theorem consensus_confidence_counterexample :
    ((consensusDecide none (some (mkV true "BOLA" 41 "m"))
        (some (mkV true "BOLA" 41 "q"))).result.hv = true ∧
      (consensusDecide none (some (mkV true "BOLA" 41 "m"))
        (some (mkV true "BOLA" 41 "q"))).result.conf < 56) ∧
    ((consensusDecide (some (mkV true "None" 80 "g")) (some (mkV true "BOLA" 90 "m"))
        (some (mkV true "BOLA" 90 "q"))).result.hv = true ∧
      (consensusDecide (some (mkV true "None" 80 "g")) (some (mkV true "BOLA" 90 "m"))
        (some (mkV true "BOLA" 90 "q"))).result.vtypeOr = "None") := by
  decide

/-- A vulnerability record as `calculate_score` reads it: only the keys
`vulnerability_type` (default `"None"`) and `confidence` (default 50) are
consulted; `none` stands for a missing key. -/
structure ScoredVuln where
  vulnerability_type : Option String := none
  confidence : Option Int := none
deriving DecidableEq

/-- The penalty weight table of celery_worker.py lines 57–61:
`{"BOLA": 25, ...}.get(v_type, 5)`. -/
def weightOf (t : String) : Int :=
  if t = "BOLA" then 25
  else if t = "IDOR" then 20
  else if t = "Privilege Escalation" then 20
  else if t = "Missing Authentication" then 15
  else if t = "Missing Role Guard" then 10
  else if t = "Inconsistent Middleware" then 8
  else 5

/-- One vulnerability's score deduction, `int(weight * conf / 100)` with
`conf = int(vuln.get("confidence", 50))` (celery_worker.py line 62). -/
def vulnPenaltyTerm (v : ScoredVuln) : Int :=
  pytrunc (weightOf (v.vulnerability_type.getD "None") * v.confidence.getD 50) 100

/-- Lines 52–68 of celery_worker.py: the risk scorer.  Returns the clamped
integer score and the severity band. -/
def calculate_score (vulnerabilities : List ScoredVuln) : Int × String :=
  let base_score := vulnerabilities.foldl (fun acc v => acc - vulnPenaltyTerm v) 100
  let final_score := max 0 (min 100 base_score)
  let severity :=
    if final_score ≤ 30 then "Critical"
    else if final_score ≤ 60 then "High"
    else if final_score ≤ 80 then "Medium"
    else "Low"
  (final_score, severity)

/-- Modelled from the spec (§4.4), for comparison with `calculate_score`:
`score := clamp(100 − Σ penalty(kind) × confidence / 100, 0, 100)` with the
spec's penalty table, reading the per-term division as the integer
truncation the worked example of spec §8 scenario 2 uses
(`100 − floor(25 × 86 / 100) = 79`). -/
def specPenalty (kind : String) : Int :=
  if kind = "BOLA" then 25
  else if kind = "IDOR" then 20
  else if kind = "Privilege Escalation" then 20
  else if kind = "Missing Authentication" then 15
  else if kind = "Missing Role Guard" then 10
  else if kind = "Inconsistent Middleware" then 8
  else 5

/-- Modelled from the spec (§4.4): the clamped sum-of-penalties score. -/
def specRiskScore (vulnerabilities : List ScoredVuln) : Int :=
  max 0 (min 100 (100 -
    (vulnerabilities.map (fun v =>
      pytrunc (specPenalty (v.vulnerability_type.getD "None") * v.confidence.getD 50) 100)).sum))

/-- Subtracting terms one by one is subtracting their sum. -/
theorem foldl_sub_eq_sub_sum (f : ScoredVuln → Int) :
    ∀ (l : List ScoredVuln) (acc : Int),
      l.foldl (fun a v => a - f v) acc = acc - (l.map f).sum := by
  intro l
  induction l with
  | nil => intro acc; simp
  | cons x xs ih =>
    intro acc
    simp only [List.foldl_cons, List.map_cons, List.sum_cons]
    rw [ih]
    ring

/-- The severity band of `calculate_score`, characterised interval by
interval. -/
theorem severity_band_iffs (s : Int) :
    ((if s ≤ 30 then "Critical" else if s ≤ 60 then "High"
        else if s ≤ 80 then "Medium" else "Low") = "Critical" ↔ s ≤ 30) ∧
    ((if s ≤ 30 then "Critical" else if s ≤ 60 then "High"
        else if s ≤ 80 then "Medium" else "Low") = "High" ↔ (30 < s ∧ s ≤ 60)) ∧
    ((if s ≤ 30 then "Critical" else if s ≤ 60 then "High"
        else if s ≤ 80 then "Medium" else "Low") = "Medium" ↔ (60 < s ∧ s ≤ 80)) ∧
    ((if s ≤ 30 then "Critical" else if s ≤ 60 then "High"
        else if s ≤ 80 then "Medium" else "Low") = "Low" ↔ 80 < s) := by
  split_ifs with h1 h2 h3 <;>
    refine ⟨⟨fun h => by first | omega | simp at h, fun h => by first | rfl | omega⟩,
            ⟨fun h => by first | omega | simp at h, fun h => by first | rfl | omega⟩,
            ⟨fun h => by first | omega | simp at h, fun h => by first | rfl | omega⟩,
            ⟨fun h => by first | omega | simp at h, fun h => by first | rfl | omega⟩⟩

/-- C3 (confirmed).  The risk score equals the spec's clamped, penalty-table
sum, and the severity band is exactly the claimed partition of the score
range.  Both are pure functions of the vulnerability list by construction. -/
theorem calculate_score_matches_spec (vulns : List ScoredVuln) :
    (calculate_score vulns).1 = specRiskScore vulns ∧
    ((calculate_score vulns).2 = "Critical" ↔ (calculate_score vulns).1 ≤ 30) ∧
    ((calculate_score vulns).2 = "High" ↔
      (30 < (calculate_score vulns).1 ∧ (calculate_score vulns).1 ≤ 60)) ∧
    ((calculate_score vulns).2 = "Medium" ↔
      (60 < (calculate_score vulns).1 ∧ (calculate_score vulns).1 ≤ 80)) ∧
    ((calculate_score vulns).2 = "Low" ↔ 80 < (calculate_score vulns).1) := by
  have hb := severity_band_iffs ((calculate_score vulns).1)
  refine ⟨?_, hb.1, hb.2.1, hb.2.2.1, hb.2.2.2⟩
  show max 0 (min 100 (vulns.foldl (fun a v => a - vulnPenaltyTerm v) 100)) = specRiskScore vulns
  rw [foldl_sub_eq_sub_sum]
  rfl

/-- Every penalty weight lies between 5 and 25. -/
theorem weightOf_range (t : String) : 5 ≤ weightOf t ∧ weightOf t ≤ 25 := by
  unfold weightOf
  split_ifs <;> omega

/-- C10 (confirmed).  A record with no confidence key at all is scored with
confidence 50: the scorer behaves identically on it and on the same record
with confidence 50, the singleton score is `clamp(100 − ⌊penalty × 50 / 100⌋)`,
and that score is strictly below 100 — a missing confidence is not neutral. -/
theorem missing_confidence_scored_as_50 (t : Option String) (rest : List ScoredVuln) :
    calculate_score ({ vulnerability_type := t, confidence := none } :: rest)
      = calculate_score ({ vulnerability_type := t, confidence := some 50 } :: rest) ∧
    (calculate_score [{ vulnerability_type := t, confidence := none }]).1
      = max 0 (min 100 (100 - pytrunc (weightOf (t.getD "None") * 50) 100)) ∧
    (calculate_score [{ vulnerability_type := t, confidence := none }]).1 < 100 := by
  have hw := weightOf_range (t.getD "None")
  have h2 : 2 ≤ pytrunc (weightOf (t.getD "None") * 50) 100 := by
    have h250 : (250 : Int) ≤ weightOf (t.getD "None") * 50 := by omega
    have := Int.ediv_le_ediv (by omega : (0:Int) < 100) h250
    have h0 : 0 ≤ weightOf (t.getD "None") * 50 := by omega
    unfold pytrunc
    rw [if_pos h0]
    omega
  have h13 : pytrunc (weightOf (t.getD "None") * 50) 100 ≤ 13 :=
    @pytrunc_le_of_le (weightOf (t.getD "None") * 50) 100 13 (by omega) (by omega) (by omega)
  refine ⟨rfl, rfl, ?_⟩
  show max 0 (min 100 (100 - pytrunc (weightOf (t.getD "None") * 50) 100)) < 100
  omega

/-- The control-flow skeleton of `run_security_scan` (celery_worker.py):
`downloadOk` is whether the archive download succeeded (lines 77–86),
`zipOk` whether the archive extracted (lines 95–100), and `dbWriteOk`
whether the `scan_results` insert succeeded (lines 194–206).  The insert is
wrapped in `try/except` that only logs, so the returned pair is the task's
status string together with whether the row was actually saved; line 208
returns `"success"` unconditionally after the save block. -/
def run_security_scan (downloadOk zipOk dbWriteOk : Bool) : String × Bool :=
  if downloadOk = false then ("error", false)
  else if zipOk = false then ("error", false)
  else ("success", dbWriteOk)

/-- C4 (corrected).  The task returns `"error"` exactly for a failed
download or a bad archive; a failed ScanResult write is caught and logged,
the row is not saved, and the task still returns `"success"`. -/
theorem db_write_failure_still_success (downloadOk zipOk : Bool) :
    ((run_security_scan downloadOk zipOk false).1 = "error" ↔
      (downloadOk = false ∨ zipOk = false)) ∧
    (downloadOk = true → zipOk = true →
      run_security_scan downloadOk zipOk false = ("success", false)) := by
  cases downloadOk <;> cases zipOk <;> decide

/-- C4, counterexample to the claim as stated: download and extraction
succeed, the DB write fails, and the scan neither aborts nor returns
`error` — it returns `success` with the row unsaved. -/
theorem db_write_failure_counterexample :
    run_security_scan true true false = ("success", false) ∧
    (run_security_scan true true false).1 ≠ "error" := by
  refine ⟨rfl, ?_⟩
  decide

/-- C5 (corrected).  A reviewer response whose text cannot be parsed yields
the fixed default verdict — a present, clean opinion — not null; in the
surviving window 70 < confidence ≤ 75, the other reviewer's flag is
dropped by the two-reviewer split-vote rule when its partner parse-failed,
but accepted by the single-witness rule when its partner was unavailable. -/
theorem parse_failure_is_clean_opinion (q : Verdict)
    (h1 : q.hv = true) (h2 : 70 < q.conf) (h3 : q.conf ≤ 75) :
    call_model (some none) = some parse_error_verdict ∧
    (consensusDecide none (call_model (some none)) (some q)).status = "clean" ∧
    (consensusDecide none none (some q)).status = "fallback_mistral" := by
  have h75 : ¬ (75 < q.conf) := by omega
  refine ⟨rfl, ?_, ?_⟩
  · show (mergeReviewers (some parse_error_verdict) (some q)).status = "clean"
    have hpe : parse_error_verdict.hv = false := rfl
    simp [mergeReviewers, hpe, h1, h75]
  · show (singleModel q).status = "fallback_mistral"
    simp [singleModel, h1, h2]

/-- C5, witness: the comparison at a BOLA verdict of confidence 73. -/
theorem parse_failure_is_clean_opinion_witness :
    call_model (some none) = some parse_error_verdict ∧
    (consensusDecide none (call_model (some none))
      (some (mkV true "BOLA" 73 "r"))).status = "clean" ∧
    (consensusDecide none none (some (mkV true "BOLA" 73 "r"))).status = "fallback_mistral" :=
  parse_failure_is_clean_opinion (mkV true "BOLA" 73 "r") (by decide) (by decide) (by decide)

/-- C5, counterexample to the claim as stated: a parse failure does not
yield null, and a parse-failed reviewer is not treated like an unavailable
one — with the same partner verdict the engine's outputs differ. -/
theorem parse_failure_counterexample :
    call_model (some none) ≠ none ∧
    consensusDecide none (call_model (some none)) (some (mkV true "BOLA" 73 "r"))
      ≠ consensusDecide none none (some (mkV true "BOLA" 73 "r")) := by
  decide

/-- A JSON string-or-null value, as a vulnerability dictionary stores one
under `path` or `file_path`. -/
inductive PyStr where
  | null
  | str (s : String)
deriving DecidableEq

/-- A confidence value as the dispatcher may receive it from the scan row:
an integer or a string (severity_filter.py coerces strings). -/
inductive ConfVal where
  | int (n : Int)
  | str (s : String)
deriving DecidableEq

/-- A vulnerability record as the jira-service reads it: the four keys used
by `is_qualifying_vulnerability` and `process_new_findings`.  A `none` field
stands for a missing key; `PyStr.null` for a key present with JSON null. -/
structure JiraVuln where
  path : Option PyStr := none
  file_path : Option PyStr := none
  vulnerability_type : Option String := none
  confidence : Option ConfVal := none
deriving DecidableEq

/-- config.py: severities that qualify for ticket creation. -/
def QUALIFYING_SEVERITIES : List String := ["High", "Critical"]

/-- severity_filter.py line 10. -/
def CRITICAL_VULN_TYPES : List String :=
  ["BOLA", "IDOR", "Missing Authentication", "Privilege Escalation"]

/-- severity_filter.py line 11. -/
def MAJOR_VULN_TYPES : List String := ["Missing Role Guard", "Inconsistent Middleware"]

/-- severity_filter.py line 12. -/
def HIGH_CONFIDENCE_THRESHOLD : Int := 55

/-- Python's `int(s)` on a string, up to the decimal grammar: surrounding
whitespace is ignored and a non-numeric string raises (here `none`). -/
def pyIntOfString (s : String) : Option Int := s.trim.toInt?

/-- Lines 18–23 of severity_filter.py: `vuln.get("confidence", 0)`, then
string values are coerced with `int(...)`, `ValueError` becoming 0. -/
def coerceConfidence (c : Option ConfVal) : Int :=
  match c with
  | none => 0
  | some (.int n) => n
  | some (.str s) => (pyIntOfString s).getD 0

/-- Lines 15–31 of severity_filter.py: the dispatcher's qualifying
predicate. -/
def is_qualifying_vulnerability (vuln : JiraVuln) (scan_severity : String) : Bool :=
  if scan_severity ∉ QUALIFYING_SEVERITIES then false
  else if coerceConfidence vuln.confidence < HIGH_CONFIDENCE_THRESHOLD then false
  else if vuln.vulnerability_type.getD "" ∈ CRITICAL_VULN_TYPES ∨
      vuln.vulnerability_type.getD "" ∈ MAJOR_VULN_TYPES then true
  else if scan_severity = "Critical" then true
  else false

/-- C6 (confirmed).  A vulnerability qualifies iff the scan severity is High
or Critical, the coerced confidence is at least 55, and either the kind is
one of the six enumerated kinds or the scan severity is Critical. -/
theorem is_qualifying_vulnerability_iff (vuln : JiraVuln) (scan_severity : String) :
    is_qualifying_vulnerability vuln scan_severity = true ↔
      ((scan_severity = "High" ∨ scan_severity = "Critical") ∧
       55 ≤ coerceConfidence vuln.confidence ∧
       (vuln.vulnerability_type.getD "" = "BOLA" ∨
        vuln.vulnerability_type.getD "" = "IDOR" ∨
        vuln.vulnerability_type.getD "" = "Missing Authentication" ∨
        vuln.vulnerability_type.getD "" = "Privilege Escalation" ∨
        vuln.vulnerability_type.getD "" = "Missing Role Guard" ∨
        vuln.vulnerability_type.getD "" = "Inconsistent Middleware" ∨
        scan_severity = "Critical")) := by
  unfold is_qualifying_vulnerability
  split_ifs with h1 h2 h3 h4 <;>
    simp_all [QUALIFYING_SEVERITIES, CRITICAL_VULN_TYPES, MAJOR_VULN_TYPES,
      HIGH_CONFIDENCE_THRESHOLD] <;>
    first | omega | tauto

/-- A row of the `jira_issues` table, the columns the dedup logic touches.
`endpoint_or_file` is nullable in the model because the dispatcher can pass
a Python `None` through (see `endpoint_or_file_key`). -/
structure JiraIssue where
  repo_name : String
  endpoint_or_file : PyStr
  vulnerability_type : String
  jira_status : String
  jira_issue_key : String
deriving DecidableEq

/-- SQL string comparison `a = b`: never true when either side is NULL. -/
def sqlStrEq : PyStr → PyStr → Bool
  | .str a, .str b => a == b
  | _, _ => false

/-- The WHERE clause of duplicate_checker.py lines 16–24: same repository,
same endpoint-or-file key, same vulnerability type, status `Open`. -/
def issueMatches (repo : String) (key : PyStr) (vt : String) (t : JiraIssue) : Bool :=
  t.repo_name == repo && sqlStrEq t.endpoint_or_file key &&
    t.vulnerability_type == vt && t.jira_status == "Open"

/-- Lines 12–35 of duplicate_checker.py: look up an open ticket's key.
`dbError` is the `except Exception` path of lines 30–32, which swallows any
database error and reports "no duplicate" (`None`). -/
def find_existing_issue (db : List JiraIssue) (dbError : Bool) (repo_name : String)
    (endpoint_or_file : PyStr) (vulnerability_type : String) : Option String :=
  if dbError then none
  else (db.find? (issueMatches repo_name endpoint_or_file vulnerability_type)).map
    (fun t => t.jira_issue_key)

/-- Line 69 of notification_worker.py:
`vuln.get("path", vuln.get("file_path", "unknown"))`.  `dict.get` falls back
to the default only when the key is absent — a key present with JSON null
is returned as is. -/
def endpoint_or_file_key (vuln : JiraVuln) : PyStr :=
  match vuln.path with
  | some v => v
  | none =>
    match vuln.file_path with
    | some v => v
    | none => .str "unknown"

/-- What the dispatcher did with one qualifying vulnerability. -/
inductive DispatchAction where
  | commented (key : String)
  | created (key : String)
  | createFailed
deriving DecidableEq

/-- Lines 68–97 of notification_worker.py, one qualifying vulnerability:
compute the dedup key and kind, look up an open ticket; comment on a hit,
otherwise create a ticket (`jiraCreate` is the tracker's reply — `none`
when `create_jira_issue` raised) and persist the row, whose `jira_status`
defaults to `Open` (db.py line 57). -/
def process_qualifying_vuln (db : List JiraIssue) (dbError : Bool)
    (jiraCreate : Option String) (repo_name : String) (vuln : JiraVuln) :
    List JiraIssue × DispatchAction :=
  let k := endpoint_or_file_key vuln
  let vt := vuln.vulnerability_type.getD "Unknown"
  match find_existing_issue db dbError repo_name k vt with
  | some existing => (db, .commented existing)
  | none =>
    match jiraCreate with
    | some issueKey =>
        (db ++ [{ repo_name := repo_name, endpoint_or_file := k,
                  vulnerability_type := vt, jira_status := "Open",
                  jira_issue_key := issueKey }],
         .created issueKey)
    | none => (db, .createFailed)

/-- Number of Open tickets for one (repository, string key, kind) triple. -/
def openCount (db : List JiraIssue) (repo key vt : String) : Nat :=
  (db.filter (issueMatches repo (.str key) vt)).length

/-- `sqlStrEq` against a string is plain equality on `PyStr`. -/
theorem sqlStrEq_str_iff (a : PyStr) (s : String) :
    sqlStrEq a (.str s) = true ↔ a = .str s := by
  cases a <;> simp [sqlStrEq]

/-- C7 (corrected).  With the duplicate lookup not erroring: when an open
ticket exists for the triple the dispatcher only comments and changes no
row, and one dispatch step preserves "at most one Open ticket per
(repository, string key, kind)".  The dedup key is the `path` value whenever
that key is present — null included — falling back to `file_path` and then
`"unknown"` only for absent keys. -/
theorem dispatcher_dedup_step (db : List JiraIssue) (jiraCreate : Option String)
    (repo : String) (vuln : JiraVuln)
    (hinv : ∀ r k t, openCount db r k t ≤ 1) :
    (∀ r k t, openCount (process_qualifying_vuln db false jiraCreate repo vuln).1 r k t ≤ 1) ∧
    (∀ ik, find_existing_issue db false repo (endpoint_or_file_key vuln)
        (vuln.vulnerability_type.getD "Unknown") = some ik →
      process_qualifying_vuln db false jiraCreate repo vuln = (db, .commented ik)) := by
  constructor
  · intro r k t
    simp only [process_qualifying_vuln]
    cases hfind : find_existing_issue db false repo (endpoint_or_file_key vuln)
        (vuln.vulnerability_type.getD "Unknown") with
    | some existing => exact hinv r k t
    | none =>
      cases jiraCreate with
      | none => exact hinv r k t
      | some ik =>
        have hnone : ∀ x ∈ db,
            issueMatches repo (endpoint_or_file_key vuln)
              (vuln.vulnerability_type.getD "Unknown") x = false := by
          intro x hx
          have h0 : db.find? (issueMatches repo (endpoint_or_file_key vuln)
              (vuln.vulnerability_type.getD "Unknown")) = none := by
            by_contra hne
            rcases Option.ne_none_iff_exists.mp hne with ⟨y, hy⟩
            simp [find_existing_issue, ← hy] at hfind
          have := List.find?_eq_none.mp h0 x hx
          simpa using this
        show openCount (db ++ [_]) r k t ≤ 1
        unfold openCount
        rw [List.filter_append, List.length_append]
        by_cases hmatch : issueMatches r (.str k) t
            { repo_name := repo, endpoint_or_file := endpoint_or_file_key vuln,
              vulnerability_type := vuln.vulnerability_type.getD "Unknown",
              jira_status := "Open", jira_issue_key := ik } = true
        · -- the new row counts for (r, k, t): then no old row can
          have hm := hmatch
          simp only [issueMatches, Bool.and_eq_true, beq_iff_eq] at hm
          obtain ⟨⟨⟨hrepo, hkey⟩, hvt⟩, -⟩ := hm
          have hkey' : endpoint_or_file_key vuln = .str k :=
            (sqlStrEq_str_iff _ _).mp hkey
          have hzero : (db.filter (issueMatches r (.str k) t)).length = 0 := by
            rw [List.length_eq_zero]
            rw [List.filter_eq_nil_iff]
            intro x hx
            have := hnone x hx
            rw [← hrepo, ← hkey', ← hvt]
            simp [this]
          rw [hzero]
          simp [List.filter_cons, hmatch]
        · have hone : (List.filter (issueMatches r (.str k) t)
              [{ repo_name := repo, endpoint_or_file := endpoint_or_file_key vuln,
                 vulnerability_type := vuln.vulnerability_type.getD "Unknown",
                 jira_status := "Open", jira_issue_key := ik }]).length = 0 := by
            simp [List.filter_cons, hmatch]
          rw [hone]
          have hd := hinv r k t
          unfold openCount at hd
          omega
  · intro ik hik
    simp only [process_qualifying_vuln, hik]

/-- C7, witness: the step at an empty ticket table and a concrete BOLA
vulnerability on path `/api/x`. -/
theorem dispatcher_dedup_step_witness :
    (∀ r k t, openCount (process_qualifying_vuln [] false (some "SENT-1") "r"
        { path := some (.str "/api/x"), vulnerability_type := some "BOLA",
          confidence := some (.int 80) }).1 r k t ≤ 1) ∧
    (∀ ik, find_existing_issue [] false "r"
        (endpoint_or_file_key
          { path := some (.str "/api/x"), vulnerability_type := some "BOLA",
            confidence := some (.int 80) })
        (({ path := some (.str "/api/x"), vulnerability_type := some "BOLA",
            confidence := some (.int 80) } : JiraVuln).vulnerability_type.getD "Unknown")
        = some ik →
      process_qualifying_vuln [] false (some "SENT-1") "r"
        { path := some (.str "/api/x"), vulnerability_type := some "BOLA",
          confidence := some (.int 80) } = ([], .commented ik)) :=
  dispatcher_dedup_step [] (some "SENT-1") "r"
    { path := some (.str "/api/x"), vulnerability_type := some "BOLA",
      confidence := some (.int 80) }
    (fun r k t => by simp [openCount])

/-- The one-row ticket table of the counterexample. -/
def cexDb : List JiraIssue :=
  [{ repo_name := "r", endpoint_or_file := .str "/api/x",
     vulnerability_type := "BOLA", jira_status := "Open",
     jira_issue_key := "SENT-1" }]

/-- C7, counterexample to the claim as stated.  First conjunct pair: a
vulnerability whose `path` key is present but null gets dedup key null, not
its `file_path`.  Rest: with an Open ticket already present for
(`r`, `/api/x`, BOLA), a lookup error makes the dispatcher create a second
ticket, leaving two Open tickets for the triple. -/
theorem dispatcher_dedup_counterexample :
    endpoint_or_file_key
      { path := some .null, file_path := some (.str "a.py"),
        vulnerability_type := some "BOLA", confidence := some (.int 80) } = .null ∧
    endpoint_or_file_key
      { path := some .null, file_path := some (.str "a.py"),
        vulnerability_type := some "BOLA", confidence := some (.int 80) } ≠ .str "a.py" ∧
    openCount cexDb "r" "/api/x" "BOLA" = 1 ∧
    openCount (process_qualifying_vuln cexDb true (some "SENT-2") "r"
      { path := some (.str "/api/x"), vulnerability_type := some "BOLA",
        confidence := some (.int 80) }).1 "r" "/api/x" "BOLA" = 2 := by
  decide

/-- A vulnerability record as the attack simulator fetches it.  Only
`validated_by` is inspected by the per-model filter; `payload` stands for
the remaining JSON fields, which the filter does not read. -/
structure RTVuln where
  validated_by : Option String := none
  payload : String := ""
deriving DecidableEq

/-- Lines 22–25 of attack_simulator.py: `_MODEL_TAGS`, the `validated_by`
values indicating the given model participated in the verdict. -/
def MODEL_TAGS (model : String) : Option (List String) :=
  if model = "mistral" then some ["fallback_mistral", "consensus", "judged", "gemini_validated"]
  else if model = "qwen" then some ["consensus", "judged", "gemini_validated"]
  else none

/-- Lines 74–85 of attack_simulator.py, the successful-response path of
`fetch_vulnerabilities`: with a model filter that is a `_MODEL_TAGS` key,
keep the vulnerabilities whose `v.get("validated_by", "")` is in the tag
set; otherwise return everything. -/
def fetch_vulnerabilities_filter (model : Option String) (all_vulns : List RTVuln) :
    List RTVuln :=
  match model with
  | some m =>
    match MODEL_TAGS m with
    | some tags => all_vulns.filter (fun v => decide (v.validated_by.getD "" ∈ tags))
    | none => all_vulns
  | none => all_vulns

/-- C8 (confirmed).  Filtering by `qwen` returns exactly the vulnerabilities
whose provenance tag is `consensus`, `judged` or `gemini_validated`;
filtering by `mistral` additionally admits `fallback_mistral`; and no
`fallback_mistral` vulnerability survives the `qwen` filter. -/
theorem fetch_vulnerabilities_by_model (vulns : List RTVuln) :
    fetch_vulnerabilities_filter (some "qwen") vulns
      = vulns.filter (fun v => decide (v.validated_by.getD "" = "consensus" ∨
          v.validated_by.getD "" = "judged" ∨
          v.validated_by.getD "" = "gemini_validated")) ∧
    fetch_vulnerabilities_filter (some "mistral") vulns
      = vulns.filter (fun v => decide (v.validated_by.getD "" = "consensus" ∨
          v.validated_by.getD "" = "judged" ∨
          v.validated_by.getD "" = "gemini_validated" ∨
          v.validated_by.getD "" = "fallback_mistral")) ∧
    (∀ v ∈ fetch_vulnerabilities_filter (some "qwen") vulns,
      v.validated_by.getD "" ≠ "fallback_mistral") := by
  have hq : MODEL_TAGS "qwen" = some ["consensus", "judged", "gemini_validated"] := rfl
  have hm : MODEL_TAGS "mistral"
      = some ["fallback_mistral", "consensus", "judged", "gemini_validated"] := rfl
  refine ⟨?_, ?_, ?_⟩
  · simp only [fetch_vulnerabilities_filter, hq]
    exact List.filter_congr (fun v _ => by rw [decide_eq_decide]; simp)
  · simp only [fetch_vulnerabilities_filter, hm]
    exact List.filter_congr (fun v _ => by rw [decide_eq_decide]; simp; tauto)
  · intro v hv heq
    simp only [fetch_vulnerabilities_filter, hq] at hv
    have hmem := (List.mem_filter.mp hv).2
    rw [heq] at hmem
    simp at hmem

/-- An endpoint record from `parse_fastapi_code`: the keys the merge loop
reads (`method`, `path`) plus the function name; guards, arguments and
source are not consulted by the merge and are elided. -/
structure EndpointRec where
  function_name : String
  method : String
  path : String
deriving DecidableEq

/-- A function record from `extract_all_functions`: the merge loop reads
only `function_name`. -/
structure FunctionRec where
  function_name : String
deriving DecidableEq

/-- One parsed source file: its path relative to the archive root and the
two extraction streams.  Per spec §4.1 (`extract_all_functions` is not in
the staged sources) the function stream holds every named function
definition of the file, endpoint handlers included. -/
structure SourceFile where
  rel_path : String
  endpoints : List EndpointRec
  functions : List FunctionRec
deriving DecidableEq

/-- An entry of `all_items`: an endpoint or a plain function, each tagged
with its file path. -/
inductive ScanItem where
  | endpoint (file_path : String) (ep : EndpointRec)
  | func (file_path : String) (fn : FunctionRec)
deriving DecidableEq

/-- Line 124 of celery_worker.py: `f"{ep['method']}:{ep['path']}"`. -/
def epKey (ep : EndpointRec) : String := ep.method ++ ":" ++ ep.path

/-- Line 135 of celery_worker.py:
`f"FUNCTION:{fn['function_name']}:{rel_path}"`. -/
def fnKey (name file : String) : String := "FUNCTION:" ++ name ++ ":" ++ file

/-- The loop state of lines 102–140: the `endpoint_keys` set and the
`all_items` list. -/
structure MergeState where
  endpoint_keys : List String
  all_items : List ScanItem
deriving DecidableEq

/-- Lines 121–126: an endpoint's key is added and the endpoint appended —
with no membership check. -/
def addEndpoint (rel : String) (st : MergeState) (ep : EndpointRec) : MergeState :=
  { endpoint_keys := epKey ep :: st.endpoint_keys,
    all_items := st.all_items ++ [.endpoint rel ep] }

/-- Lines 133–138: a function is appended only when its
`FUNCTION:name:file` key is not yet in `endpoint_keys`. -/
def addFunction (rel : String) (st : MergeState) (fn : FunctionRec) : MergeState :=
  if fnKey fn.function_name rel ∈ st.endpoint_keys then st
  else { endpoint_keys := fnKey fn.function_name rel :: st.endpoint_keys,
         all_items := st.all_items ++ [.func rel fn] }

/-- One file's pass of the loop: endpoints first, then functions. -/
def processFile (st : MergeState) (f : SourceFile) : MergeState :=
  f.functions.foldl (addFunction f.rel_path)
    (f.endpoints.foldl (addEndpoint f.rel_path) st)

/-- The merged `all_items` list over all walked files. -/
def mergeScanItems (files : List SourceFile) : List ScanItem :=
  (files.foldl processFile { endpoint_keys := [], all_items := [] }).all_items

/-- The `FUNCTION:name:file` key of a plain-function item. -/
def itemFnKey : ScanItem → Option String
  | .func rel fn => some (fnKey fn.function_name rel)
  | .endpoint _ _ => none

/-- The `METHOD:path` key of an endpoint item. -/
def itemEpKey : ScanItem → Option String
  | .endpoint _ ep => some (epKey ep)
  | .func _ _ => none

/-- Whether an item is an endpoint. -/
def ScanItem.isEndpoint : ScanItem → Bool
  | .endpoint _ _ => true
  | .func _ _ => false

/-- How many items carry the plain-function key `k`. -/
def fnKeyCount (items : List ScanItem) (k : String) : Nat :=
  (items.filter (fun it => decide (itemFnKey it = some k))).length

/-- How many items carry the endpoint key `k`. -/
def epKeyCount (items : List ScanItem) (k : String) : Nat :=
  (items.filter (fun it => decide (itemEpKey it = some k))).length

/-- The merge-loop invariant: plain-function keys are unique among the
items, and every emitted plain-function key is recorded in
`endpoint_keys`. -/
def MergeInv (st : MergeState) : Prop :=
  (∀ k, fnKeyCount st.all_items k ≤ 1) ∧
  (∀ it ∈ st.all_items, ∀ k, itemFnKey it = some k → k ∈ st.endpoint_keys)

/-- Counting function keys distributes over append. -/
theorem fnKeyCount_append (l1 l2 : List ScanItem) (k : String) :
    fnKeyCount (l1 ++ l2) k = fnKeyCount l1 k + fnKeyCount l2 k := by
  simp [fnKeyCount, List.filter_append]

/-- Appending an endpoint preserves the merge invariant. -/
theorem addEndpoint_inv (rel : String) (st : MergeState) (ep : EndpointRec)
    (h : MergeInv st) : MergeInv (addEndpoint rel st ep) := by
  obtain ⟨h1, h2⟩ := h
  constructor
  · intro k
    rw [show (addEndpoint rel st ep).all_items = st.all_items ++ [.endpoint rel ep] from rfl]
    rw [fnKeyCount_append]
    have hz : fnKeyCount [ScanItem.endpoint rel ep] k = 0 := by
      simp [fnKeyCount, itemFnKey]
    have := h1 k
    omega
  · intro it hit k hk
    rcases List.mem_append.mp hit with hmem | hmem
    · exact List.mem_cons_of_mem _ (h2 it hmem k hk)
    · rw [List.mem_singleton.mp hmem] at hk
      simp [itemFnKey] at hk

/-- Appending a function preserves the merge invariant. -/
theorem addFunction_inv (rel : String) (st : MergeState) (fn : FunctionRec)
    (h : MergeInv st) : MergeInv (addFunction rel st fn) := by
  obtain ⟨h1, h2⟩ := h
  unfold addFunction
  split
  · exact ⟨h1, h2⟩
  next hkey =>
    constructor
    · intro k
      show fnKeyCount (st.all_items ++ [ScanItem.func rel fn]) k ≤ 1
      rw [fnKeyCount_append]
      by_cases hk : fnKey fn.function_name rel = k
      · have h0 : fnKeyCount st.all_items k = 0 := by
          by_contra hne
          have hpos : 0 < (st.all_items.filter
              (fun it => decide (itemFnKey it = some k))).length := by
            have : fnKeyCount st.all_items k ≠ 0 := hne
            unfold fnKeyCount at this
            omega
          obtain ⟨it, hit⟩ := List.exists_mem_of_length_pos hpos
          have hin := List.mem_filter.mp hit
          have hkeyin := h2 it hin.1 k (by simpa using hin.2)
          rw [← hk] at hkeyin
          exact hkey hkeyin
        have hone : fnKeyCount [ScanItem.func rel fn] k ≤ 1 := by
          simp [fnKeyCount, List.filter_cons]
          split <;> simp
        omega
      · have hz : fnKeyCount [ScanItem.func rel fn] k = 0 := by
          simp [fnKeyCount, itemFnKey, hk]
        have := h1 k
        omega
    · intro it hit k hk
      rcases List.mem_append.mp hit with hmem | hmem
      · exact List.mem_cons_of_mem _ (h2 it hmem k hk)
      · rw [List.mem_singleton.mp hmem] at hk
        simp only [itemFnKey, Option.some.injEq] at hk
        rw [← hk]
        exact List.mem_cons_self _ _

/-- The endpoint fold preserves the merge invariant. -/
theorem foldl_addEndpoint_inv (rel : String) :
    ∀ (eps : List EndpointRec) (st : MergeState), MergeInv st →
      MergeInv (eps.foldl (addEndpoint rel) st) := by
  intro eps
  induction eps with
  | nil => exact fun st h => h
  | cons e es ih => exact fun st h => ih _ (addEndpoint_inv rel st e h)

/-- The function fold preserves the merge invariant. -/
theorem foldl_addFunction_inv (rel : String) :
    ∀ (fns : List FunctionRec) (st : MergeState), MergeInv st →
      MergeInv (fns.foldl (addFunction rel) st) := by
  intro fns
  induction fns with
  | nil => exact fun st h => h
  | cons f fs ih => exact fun st h => ih _ (addFunction_inv rel st f h)

/-- One file's pass preserves the merge invariant. -/
theorem processFile_inv (st : MergeState) (f : SourceFile) (h : MergeInv st) :
    MergeInv (processFile st f) :=
  foldl_addFunction_inv f.rel_path f.functions _
    (foldl_addEndpoint_inv f.rel_path f.endpoints st h)

/-- The whole walk preserves the merge invariant. -/
theorem foldl_processFile_inv :
    ∀ (files : List SourceFile) (st : MergeState), MergeInv st →
      MergeInv (files.foldl processFile st) := by
  intro files
  induction files with
  | nil => exact fun st h => h
  | cons f fs ih => exact fun st h => ih _ (processFile_inv st f h)

/-- The empty loop state satisfies the merge invariant. -/
theorem mergeInv_init : MergeInv { endpoint_keys := [], all_items := [] } := by
  constructor
  · intro k
    simp [fnKeyCount]
  · intro it hit
    simp at hit

/-- The endpoint stream of the state after appending the endpoints of one
file. -/
theorem filter_isEndpoint_foldl_addEndpoint (rel : String) :
    ∀ (eps : List EndpointRec) (st : MergeState),
      (eps.foldl (addEndpoint rel) st).all_items.filter ScanItem.isEndpoint
        = st.all_items.filter ScanItem.isEndpoint ++ eps.map (ScanItem.endpoint rel) := by
  intro eps
  induction eps with
  | nil => intro st; simp
  | cons e es ih =>
    intro st
    rw [List.foldl_cons, ih]
    simp [addEndpoint, List.filter_append, ScanItem.isEndpoint, List.filter_cons]

/-- The function fold leaves the endpoint stream unchanged. -/
theorem filter_isEndpoint_foldl_addFunction (rel : String) :
    ∀ (fns : List FunctionRec) (st : MergeState),
      (fns.foldl (addFunction rel) st).all_items.filter ScanItem.isEndpoint
        = st.all_items.filter ScanItem.isEndpoint := by
  intro fns
  induction fns with
  | nil => intro st; rfl
  | cons f fs ih =>
    intro st
    rw [List.foldl_cons, ih]
    unfold addFunction
    split
    · rfl
    · simp [List.filter_append, ScanItem.isEndpoint, List.filter_cons]

/-- The endpoint stream after the whole walk: every extracted endpoint, in
file order, appended unconditionally. -/
theorem filter_isEndpoint_foldl_processFile :
    ∀ (files : List SourceFile) (st : MergeState),
      (files.foldl processFile st).all_items.filter ScanItem.isEndpoint
        = st.all_items.filter ScanItem.isEndpoint
          ++ files.flatMap (fun f => f.endpoints.map (ScanItem.endpoint f.rel_path)) := by
  intro files
  induction files with
  | nil => intro st; simp
  | cons f fs ih =>
    intro st
    rw [List.foldl_cons, ih]
    unfold processFile
    rw [filter_isEndpoint_foldl_addFunction, filter_isEndpoint_foldl_addEndpoint]
    simp [List.append_assoc]

/-- C9 (corrected).  The merged list holds at most one plain function per
`FUNCTION:name:file` key, but its endpoint stream is exactly the
concatenation of every file's extracted endpoints — endpoints are appended
with no per-(method, path) check, so duplicates survive, and an endpoint's
`METHOD:path` key can never block the `FUNCTION:name:file` key of the same
function. -/
theorem merge_function_key_unique (files : List SourceFile) :
    (∀ k, fnKeyCount (mergeScanItems files) k ≤ 1) ∧
    ((mergeScanItems files).filter ScanItem.isEndpoint
      = files.flatMap (fun f => f.endpoints.map (ScanItem.endpoint f.rel_path))) := by
  constructor
  · exact (foldl_processFile_inv files _ mergeInv_init).1
  · have h := filter_isEndpoint_foldl_processFile files
      { endpoint_keys := [], all_items := [] }
    simpa [mergeScanItems] using h

/-- The endpoint record `GET /x` handled by `read_user`, for the
counterexample. -/
def cexEpRec : EndpointRec := { function_name := "read_user", method := "GET", path := "/x" }

/-- The same handler as a plain-function record. -/
def cexFnRec : FunctionRec := { function_name := "read_user" }

/-- Two files each declaring `GET /x`. -/
def cexFileA : SourceFile := { rel_path := "a.py", endpoints := [cexEpRec], functions := [] }

/-- Second file with the identical endpoint. -/
def cexFileB : SourceFile := { rel_path := "b.py", endpoints := [cexEpRec], functions := [] }

/-- One file whose handler appears in both extraction streams. -/
def cexFileC : SourceFile :=
  { rel_path := "c.py", endpoints := [cexEpRec], functions := [cexFnRec] }

/-- C9, counterexample to the claim as stated: two files declaring the same
`GET /x` endpoint yield two merged items with endpoint key `GET:/x`, and a
file whose handler `read_user` is extracted both as an endpoint and as a
plain function yields both items — the endpoint emission does not suppress
the plain-function copy. -/
theorem merge_uniqueness_counterexample :
    epKeyCount (mergeScanItems [cexFileA, cexFileB]) "GET:/x" = 2 ∧
    mergeScanItems [cexFileC] = [.endpoint "c.py" cexEpRec, .func "c.py" cexFnRec] := by
  decide

end Sentinel
